import Mathlib

/-!
Shallow embedding of the blog-style REST backend
(`src/index.js` request handlers, `src/jest.setup.js` Google OAuth
strategy callback) and proofs about its behaviour.

Conventions of the embedding:
* JavaScript strings that may be `undefined` become `Option String`;
  JS truthiness of such a value is `jsTruthy` (`none` and `some ""` are
  falsy).
* Response bodies are modelled as a small JSON datatype so that
  properties such as "the password field never appears in a response"
  can be stated structurally.
* Handlers that can send more than one response (the `index.js` PUT
  handler's error branch lacks a `return`) produce a `List` of
  responses, in the order the code sends them.
* External services (the JWT library, bcrypt, the hosted database) are
  modelled either as explicit function parameters (`verify`,
  `compare`), as the row lists of the two tables (`Users`, `Posts`)
  together with the PostgREST `.single()` semantics (exactly one
  matching row succeeds, anything else is an error), or — where a
  concurrent writer matters, as in the OAuth find-or-create race — as
  oracle parameters giving the outcome of each store call, with the
  calls the code performs recorded in a trace.
-/

namespace Backend

/- JSON values, with the field lists and element lists as mutual
inductives so that recursion over them is structural. -/
mutual
inductive Json where
  | null : Json
  | str (s : String) : Json
  | num (n : Int) : Json
  | bool (b : Bool) : Json
  | arr (xs : JsonList) : Json
  | obj (fs : JsonFields) : Json
  deriving Repr

inductive JsonList where
  | nil : JsonList
  | cons (x : Json) (xs : JsonList) : JsonList
  deriving Repr

inductive JsonFields where
  | nil : JsonFields
  | cons (k : String) (v : Json) (fs : JsonFields) : JsonFields
  deriving Repr
end

/-- Build a `JsonList` from a `List`. -/
def JsonList.ofList : List Json → JsonList
  | [] => .nil
  | x :: xs => .cons x (JsonList.ofList xs)

/-- Build a `JsonFields` from an association list. -/
def JsonFields.ofList : List (String × Json) → JsonFields
  | [] => .nil
  | (k, v) :: fs => .cons k v (JsonFields.ofList fs)

/-- JSON array from a list literal. -/
def jarr (l : List Json) : Json := .arr (JsonList.ofList l)

/-- JSON object from an association-list literal. -/
def jobj (l : List (String × Json)) : Json := .obj (JsonFields.ofList l)

mutual
/-- Does the key `k` occur (at any depth) as an object key in `j`? -/
def Json.hasKey (k : String) : Json → Bool
  | .null => false
  | .str _ => false
  | .num _ => false
  | .bool _ => false
  | .arr xs => JsonList.hasKeyL k xs
  | .obj fs => JsonFields.hasKeyF k fs

/-- `Json.hasKey` over array elements. -/
def JsonList.hasKeyL (k : String) : JsonList → Bool
  | .nil => false
  | .cons x xs => Json.hasKey k x || JsonList.hasKeyL k xs

/-- `Json.hasKey` over object fields: either a field has key `k`, or
the key occurs inside a field value. -/
def JsonFields.hasKeyF (k : String) : JsonFields → Bool
  | .nil => false
  | .cons k' v fs => k' == k || Json.hasKey k v || JsonFields.hasKeyF k fs
end

theorem hasKey_jobj (k : String) (l : List (String × Json)) :
    (jobj l).hasKey k =
      l.any (fun kv => kv.1 == k || kv.2.hasKey k) := by
  induction l with
  | nil => rfl
  | cons hd tl ih =>
      cases hd with
      | mk k' v =>
          simp [jobj, JsonFields.ofList, Json.hasKey, JsonFields.hasKeyF,
            List.any_cons, Bool.or_assoc] at ih ⊢
          rw [← ih]

theorem hasKey_jarr (k : String) (l : List Json) :
    (jarr l).hasKey k = l.any (fun x => x.hasKey k) := by
  induction l with
  | nil => rfl
  | cons hd tl ih =>
      simp [jarr, JsonList.ofList, Json.hasKey, JsonList.hasKeyL,
        List.any_cons] at ih ⊢
      rw [← ih]

/-- A `Users` table row.  `password` is `none` for OAuth-only accounts
(SQL `NULL`); `profile_picture` may also be absent. -/
structure User where
  id : Nat
  name : String
  email : String
  password : Option String
  created_at : Nat
  profile_picture : Option String
  deriving Repr, DecidableEq

/-- A `Posts` table row. -/
structure Post where
  id : Nat
  title : String
  body : String
  user_id : Nat
  created_at : Nat
  deriving Repr, DecidableEq

/-- The JWT payload signed by `generateTokenAndSetCookie`. -/
structure TokenClaims where
  id : Nat
  email : String
  deriving Repr, DecidableEq

/-- A store (PostgREST) error object: `code` (e.g. `"23505"`,
`"PGRST116"`) and `message`. -/
structure StoreErr where
  code : String
  msg : String
  deriving Repr, DecidableEq

/-- A data-store operation, as recorded in a handler's trace. -/
inductive StoreOp where
  | lookup (email : String)
  | insertUser (name email : String) (password : Option String)
  deriving Repr, DecidableEq

/-- One HTTP response: status code and JSON body. -/
abbrev Resp := Nat × Json

/-- JS truthiness of a possibly-`undefined` string: `undefined` and
`""` are falsy. -/
def jsTruthy : Option String → Bool
  | none => false
  | some s => s ≠ ""

/-- JSON rendering of a nullable string column. -/
def optStr : Option String → Json
  | none => .null
  | some s => .str s

/-- JS `String.prototype.split(" ")` on the underlying character
list: split at every single space. -/
def splitSpaceChars : List Char → List (List Char)
  | [] => [[]]
  | c :: cs =>
      let r := splitSpaceChars cs
      if c = ' ' then [] :: r
      else
        match r with
        | [] => [[c]]
        | h :: t => (c :: h) :: t

/-- JS `s.split(" ")`. -/
def jsSplitSpace (s : String) : List String :=
  (splitSpaceChars s.toList).map (fun l => ⟨l⟩)

/-- JS `String.prototype.toLowerCase` (character-wise). -/
def jsToLower (s : String) : String := ⟨s.toList.map Char.toLower⟩

/-- JS `String.prototype.trim`: strip leading and trailing
whitespace. -/
def jsTrim (s : String) : String :=
  ⟨((s.toList.dropWhile Char.isWhitespace).reverse.dropWhile
      Char.isWhitespace).reverse⟩

/-! ### Authentication middleware (`authenticateToken`, src/index.js 55-73) -/

/-- `const headerToken = authHeader && authHeader.split(" ")[1]` with
`authHeader = req.headers["authorization"] || ""`.  `none` stands for a
falsy result (`""` short-circuit or an out-of-range index giving
`undefined`). -/
def headerToken (authorization : Option String) : Option String :=
  let authHeader := authorization.getD ""
  if authHeader = "" then none else (jsSplitSpace authHeader).get? 1

/-- `const token = headerToken || cookieToken`: the header token when it
is truthy, otherwise whatever the cookie holds (`ck` is
`req.cookies && req.cookies[process.env.COOKIE_NAME]`). -/
def tokenJS (authorization ck : Option String) : Option String :=
  match headerToken authorization with
  | some t => if t ≠ "" then some t else ck
  | none => ck

/-- Outcome of the middleware: reject with a status and message, or
attach the decoded claims to the request and call `next()`. -/
inductive AuthResult where
  | reject (status : Nat) (message : String)
  | accept (claims : TokenClaims)
  deriving Repr, DecidableEq

/-- `authenticateToken` (src/index.js 55-73).  `verify` models
`jwt.verify`: `.error e` is a thrown verification error with message
`e`. -/
def authenticateToken (verify : String → Except String TokenClaims)
    (authorization ck : Option String) : AuthResult :=
  match tokenJS authorization ck with
  | none => .reject 401 "Invalid or no token found"
  | some t =>
      if t = "" then .reject 401 "Invalid or no token found"
      else
        match verify t with
        | .ok decoded => .accept decoded
        | .error _ => .reject 401 "Invalid token"

/-! ### GET /posts (src/index.js 307-351) -/

/-- JavaScript `parseInt` restricted to what this code feeds it:
optional whitespace, optional sign, then a digit prefix; `none` is
`NaN`. -/
def parseIntJS (s : String) : Option Int :=
  let cs := s.toList.dropWhile Char.isWhitespace
  let signed : Bool × List Char :=
    match cs with
    | '-' :: rest => (true, rest)
    | '+' :: rest => (false, rest)
    | _ => (false, cs)
  let digits := signed.2.takeWhile Char.isDigit
  if digits.isEmpty then none
  else
    let v : Nat := digits.foldl (fun acc c => 10 * acc + (c.toNat - '0'.toNat)) 0
    some (if signed.1 then -(v : Int) else (v : Int))

/-- `parseInt(q) || d`: `NaN` and `0` both fall back to the default. -/
def jsOrDefault (q : Option String) (d : Int) : Int :=
  match q.bind (fun s => parseIntJS s) with
  | some v => if v = 0 then d else v
  | none => d

/-- Effective page: `parseInt(req.query.page) || 1`, then
`if (page < 1) page = 1`. -/
def effPage (pageQ : Option String) : Int :=
  let page := jsOrDefault pageQ 1
  if page < 1 then 1 else page

/-- Effective limit: `parseInt(req.query.limit) || 10`, then
`limit = Math.min((1, limit), 100)` — the comma expression `(1, limit)`
evaluates to `limit`, so this is `min(limit, 100)`. -/
def effLimit (limitQ : Option String) : Int :=
  min (jsOrDefault limitQ 10) 100

/-- `Math.ceil(c / l)` for integer operands (`l ≠ 0`), via
`⌈x⌉ = -⌊-x⌋` and floor division. -/
def jsCeilDiv (c l : Int) : Int := -(Int.fdiv (-c) l)

/-- Is `needle` a contiguous sublist of `hay`? -/
def containsSub (needle : List Char) : List Char → Bool
  | [] => needle.isEmpty
  | c :: t => needle.isPrefixOf (c :: t) || containsSub needle t

/-- `.ilike("title", %search%)`: case-insensitive substring match. -/
def ilikeTitle (title search : String) : Bool :=
  containsSub ((jsToLower search).toList) ((jsToLower title).toList)

/-- The rows that survive the optional title filter (`count: "exact"`
counts these, independently of the requested range). -/
def filteredRows (rows : List (Post × User)) (searchQ : Option String) :
    List (Post × User) :=
  let search := searchQ.getD ""
  if search = "" then rows else rows.filter (fun r => ilikeTitle r.1.title search)

/-- Filtered rows ordered by `created_at` descending. -/
def sortedRows (rows : List (Post × User)) (searchQ : Option String) :
    List (Post × User) :=
  (filteredRows rows searchQ).mergeSort (fun a b => b.1.created_at ≤ a.1.created_at)

/-- The successful GET /posts response payload. -/
structure PostsResp where
  posts : List (Post × User)
  totalPosts : Nat
  totalPages : Int
  currentPage : Int
  deriving Repr, DecidableEq

/-- GET /posts (src/index.js 307-351), success path.  `rows` is the
`Posts` table joined with its owning `Users` row.  The window
`range(start, end)` with `start = (page-1)*limit`,
`end = start+limit-1` becomes drop/take. -/
def getPostsResp (rows : List (Post × User))
    (pageQ limitQ searchQ : Option String) : PostsResp :=
  let page := effPage pageQ
  let limit := effLimit limitQ
  let start := (page - 1) * limit
  let endIdx := start + limit - 1
  let sorted := sortedRows rows searchQ
  let count := (filteredRows rows searchQ).length
  { posts := (sorted.drop start.toNat).take (endIdx - start + 1).toNat
    totalPosts := count
    totalPages := jsCeilDiv count limit
    currentPage := page }

/-! ### PostgREST `.single()` semantics -/

/-- `.select("*").eq("email", e).single()` on `Users`: exactly one
matching row yields data, zero (PGRST116) or several rows yield an
error. -/
def singleByEmail (db : List User) (e : String) : Except StoreErr User :=
  match db.filter (fun u => u.email == e) with
  | [u] => .ok u
  | _ => .error { code := "PGRST116", msg := "JSON object requested, multiple (or no) rows returned" }

/-- `.eq("id", i).single()` on `Users`. -/
def singleById (db : List User) (i : Nat) : Except StoreErr User :=
  match db.filter (fun u => u.id == i) with
  | [u] => .ok u
  | _ => .error { code := "PGRST116", msg := "JSON object requested, multiple (or no) rows returned" }

/-- The `Posts` rows matching `.eq("id", postId).eq("user_id", uid)` —
the filter used by both the update and the delete mutation. -/
def matchingPosts (db : List Post) (postId uid : Nat) : List Post :=
  db.filter (fun p => p.id == postId && p.user_id == uid)

/-! ### Response bodies -/

/-- `{ id, name, email }` — the user sub-object of the register
response. -/
def userBrief (u : User) : Json :=
  jobj [("id", .num u.id), ("name", .str u.name), ("email", .str u.email)]

/-- Register 201 body (src/index.js 185-190). -/
def registerSuccessBody (u : User) : Json :=
  jobj [("message", .str "User created successfully"), ("user", userBrief u)]

/-- Login 200 body (src/index.js 230-238). -/
def loginSuccessBody (u : User) : Json :=
  jobj [("message", .str "Login successful"),
    ("user", jobj [("id", .num u.id), ("name", .str u.name),
      ("email", .str u.email), ("profile_picture", optStr u.profile_picture)])]

/-- /auth/me 200 body (src/index.js 288-296); the store query already
projects away the password column. -/
def authMeSuccessBody (u : User) : Json :=
  jobj [("user", jobj [("id", .num u.id), ("name", .str u.name),
    ("email", .str u.email), ("created_at", .num u.created_at),
    ("profile_picture", optStr u.profile_picture)])]

/-- A joined GET /posts row: `Posts.*` plus the embedded
`Users (id, name, email)` projection. -/
def postRowJson (r : Post × User) : Json :=
  jobj [("id", .num r.1.id), ("title", .str r.1.title),
    ("body", .str r.1.body), ("user_id", .num r.1.user_id),
    ("created_at", .num r.1.created_at),
    ("Users", userBrief r.2)]

/-- GET /posts 200 body (src/index.js 341-346). -/
def postsRespJson (r : PostsResp) : Json :=
  jobj [("posts", jarr (r.posts.map postRowJson)),
    ("totalPosts", .num r.totalPosts),
    ("totalPages", .num r.totalPages),
    ("currentPage", .num r.currentPage)]

/-- A bare `Posts` row as returned by the update mutation's
`.select()`. -/
def postBareJson (p : Post) : Json :=
  jobj [("id", .num p.id), ("title", .str p.title), ("body", .str p.body),
    ("user_id", .num p.user_id), ("created_at", .num p.created_at)]

/-! ### POST /auth/register (src/index.js 162-195) -/

/-- The register handler.  `insertRes` is the outcome of the
`.insert(...).select().single()` call (oracle: the insert can fail for
reasons outside this component).  On insert error the code sends the
500 response but, lacking a `return`, falls through to the 201
response, where `newUser.id` dereferences `null`; the thrown
`TypeError` is caught and answered with a second 500.  The handler
therefore returns the list of responses sent, in order. -/
def registerHandler (db : List User) (insertRes : Except StoreErr User)
    (name? email? password? : Option String) : List Resp :=
  match name?, email?, password? with
  | some n, some e, some p =>
      if n = "" || e = "" || p = "" then
        [(400, jobj [("message", .str "all fields are required")])]
      else
        match singleByEmail db e with
        | .ok _ => [(400, jobj [("message", .str "user already exists")])]
        | .error _ =>
            match insertRes with
            | .ok newUser => [(201, registerSuccessBody newUser)]
            | .error _ =>
                [(500, jobj [("message", .str "error creating user")]),
                 (500, jobj [("error", .str "internal server error")])]
  | _, _, _ => [(400, jobj [("message", .str "all fields are required")])]

/-! ### POST /auth/login (src/index.js 197-243) -/

/-- The login handler.  `compare` models `bcrypt.compare`.  Besides the
single response it returns the list of store operations performed, so
that "missing fields touch no store" is statable. -/
def loginHandler (db : List User) (compare : String → String → Bool)
    (email? password? : Option String) : Resp × List StoreOp :=
  match email?, password? with
  | some e, some p =>
      if e = "" || p = "" then
        ((400, jobj [("message", .str "Both email and password are required")]), [])
      else
        match singleByEmail db e with
        | .error _ => ((400, jobj [("message", .str "User not found")]), [.lookup e])
        | .ok user =>
            match user.password with
            | none =>
                ((400, jobj [("message",
                  .str "This account uses Google login. Please sign in with Google.")]),
                 [.lookup e])
            | some hash =>
                if hash = "" then
                  ((400, jobj [("message",
                    .str "This account uses Google login. Please sign in with Google.")]),
                   [.lookup e])
                else if compare p hash then
                  ((200, loginSuccessBody user), [.lookup e])
                else
                  ((400, jobj [("message", .str "Invalid credentials")]), [.lookup e])
  | _, _ =>
      ((400, jobj [("message", .str "Both email and password are required")]), [])

/-! ### GET /auth/me (src/index.js 253-306) -/

/-- `req.cookies && req.cookies[cookieName]`. -/
def reqCookieToken (cookieName : String)
    (cookies? : Option (List (String × String))) : Option String :=
  cookies?.bind (fun cs => cs.lookup cookieName)

/-- `Object.keys(req.cookies || {})`, rendered for the debug body. -/
def availableCookiesJson (cookies? : Option (List (String × String))) : Json :=
  jarr ((cookies?.getD []).map (fun c => Json.str c.1))

/-- The /auth/me handler.  `cookies?` is `req.cookies` (`none` when the
cookie parser attached nothing); `cookieName` is
`process.env.COOKIE_NAME`; `verify` models `jwt.verify` with the
thrown error's message. -/
def authMeHandler (db : List User)
    (verify : String → Except String TokenClaims)
    (cookieName : String) (cookies? : Option (List (String × String))) : Resp :=
  if jsTruthy (reqCookieToken cookieName cookies?) = false then
    (401, jobj [("user", .null), ("debug", .str "no_cookie"),
      ("availableCookies", availableCookiesJson cookies?)])
  else
    match reqCookieToken cookieName cookies? with
    | none =>
        (401, jobj [("user", .null), ("debug", .str "no_cookie"),
          ("availableCookies", availableCookiesJson cookies?)])
    | some t =>
        match verify t with
        | .error emsg =>
            (401, jobj [("user", .null), ("debug", .str "token_invalid"),
              ("error", .str emsg)])
        | .ok decoded =>
            match singleById db decoded.id with
            | .error e =>
                (401, jobj [("user", .null), ("debug", .str "user_not_found"),
                  ("error", .str e.msg)])
            | .ok user => (200, authMeSuccessBody user)

/-! ### PUT /posts/:id (src/index.js 373-396) -/

/-- The update handler for an authenticated user `uid`.  The mutation
filters by post id AND owner id; `.single()` succeeds only when exactly
one row matched.  In the error branch the code sends the 400 response
but, missing a `return`, continues and also sends the 200 response
(with `updatedPost` equal to `null`), so the handler yields a list of
responses. -/
def putPostsHandler (db : List Post) (uid postId : Nat)
    (title? body? : Option String) : List Resp :=
  match title?, body? with
  | some t, some b =>
      if t = "" || b = "" then
        [(400, jobj [("message", .str "title and body are required")])]
      else
        match matchingPosts db postId uid with
        | [p] =>
            [(200, jobj [("updatedPost",
              postBareJson { p with title := t, body := b })])]
        | _ =>
            [(400, jobj [("message", .str "Not authorized to update this post ")]),
             (200, jobj [("updatedPost", Json.null)])]
  | _, _ => [(400, jobj [("message", .str "title and body are required")])]

/-! ### DELETE /posts/:id (src/index.js 398-419) -/

/-- The delete handler for an authenticated user `uid`; same
id-and-owner filter, error branch `return`s. -/
def deletePostsHandler (db : List Post) (uid postId : Nat) : List Resp :=
  match matchingPosts db postId uid with
  | [p] =>
      [(200, jobj [("message", .str "post deleted successfully"),
        ("post", postBareJson p)])]
  | _ =>
      [(400, jobj [("message", .str "not authorized to delete this post")])]

/-! ### Google OAuth strategy callback (src/jest.setup.js 41-116) -/

/-- A provider profile.  `emails` is `profile.emails` (a possibly
missing array whose entries may lack a `value`); `displayName` and the
two `profile.name` parts may each be missing. -/
structure GProfile where
  emails : Option (List (Option String))
  displayName : Option String
  givenName : Option String
  familyName : Option String
  deriving Repr

/-- `profile.emails && profile.emails[0]?.value`: `none` is a falsy
result. -/
def profileEmail (p : GProfile) : Option String :=
  match p.emails with
  | none => none
  | some es =>
      match es.get? 0 with
      | none => none
      | some v => v

/-- String coercion of a possibly-`undefined` value, as performed by
the JS `+` operator: `undefined` becomes the string `"undefined"`. -/
def jsStr : Option String → String
  | none => "undefined"
  | some s => s

/-- `profile.displayName || profile.name?.givenName + " " +
profile.name?.familyName` (the `+` binds tighter than `||`). -/
def profileName (p : GProfile) : String :=
  match p.displayName with
  | some s => if s ≠ "" then s else jsStr p.givenName ++ " " ++ jsStr p.familyName
  | none => jsStr p.givenName ++ " " ++ jsStr p.familyName

/-- How the verify callback ends: `done(err, null)` or
`done(null, user)`. -/
inductive ResolveErr where
  | missingEmail
  | missingName
  | store (e : StoreErr)
  deriving Repr, DecidableEq

/-- The `done` outcome of the strategy callback. -/
inductive Done where
  | fail (e : ResolveErr)
  | ok (u : User)
  deriving Repr, DecidableEq

/-- The GoogleStrategy verify callback (src/jest.setup.js 41-116).
The three store calls it can make are modelled as oracle outcomes —
`fetchRes` for the initial lookup, `insertRes` for the create,
`retryRes` for the re-read after a uniqueness violation — because the
interesting behaviour (the 23505 race) depends on a concurrent writer.
The second component is the trace of store operations actually
performed, in order. -/
def googleVerify (p : GProfile)
    (fetchRes insertRes retryRes : Except StoreErr User) :
    Done × List StoreOp :=
  let email? := profileEmail p
  if jsTruthy email? = false then (.fail .missingEmail, [])
  else
    match email? with
    | none => (.fail .missingEmail, [])
    | some email =>
        let name := profileName p
        if name = "" then (.fail .missingName, [])
        else
          match fetchRes with
          | .ok existingUser => (.ok existingUser, [.lookup email])
          | .error _ =>
              let insOp : StoreOp :=
                .insertUser (jsTrim name) (jsTrim (jsToLower email)) none
              match insertRes with
              | .ok newUser => (.ok newUser, [.lookup email, insOp])
              | .error createError =>
                  if createError.code = "23505" then
                    match retryRes with
                    | .ok retryUser =>
                        (.ok retryUser, [.lookup email, insOp, .lookup email])
                    | .error _ =>
                        (.fail (.store createError),
                         [.lookup email, insOp, .lookup email])
                  else
                    (.fail (.store createError), [.lookup email, insOp])

/-! ## Claim theorems -/

/-- C2: on a guarded route, a falsy token (no header token, no cookie
token) is rejected 401 "Invalid or no token found"; a present token
failing verification is rejected 401 "Invalid token"; the two messages
differ. -/
theorem authenticateToken_rejections
    (verify : String → Except String TokenClaims)
    (authorization ck : Option String) :
    (jsTruthy (tokenJS authorization ck) = false →
      authenticateToken verify authorization ck =
        .reject 401 "Invalid or no token found") ∧
    (∀ t, tokenJS authorization ck = some t → t ≠ "" →
      ∀ e, verify t = .error e →
        authenticateToken verify authorization ck =
          .reject 401 "Invalid token") ∧
    "Invalid or no token found" ≠ "Invalid token" := by
  refine ⟨?_, ?_, by decide⟩
  · intro h
    cases htk : tokenJS authorization ck with
    | none => simp [authenticateToken, htk]
    | some t =>
        rw [htk] at h
        simp [jsTruthy] at h
        simp [authenticateToken, htk, h]
  · intro t ht hne e he
    simp [authenticateToken, ht, hne, he]

/-- Witness for `authenticateToken_rejections` at concrete inputs. -/
theorem authenticateToken_rejections_witness :
    authenticateToken (fun _ => .error "bad sig") none none =
      .reject 401 "Invalid or no token found" ∧
    authenticateToken (fun _ => .error "bad sig") (some "Bearer abc") none =
      .reject 401 "Invalid token" :=
  ⟨(authenticateToken_rejections (fun _ => .error "bad sig") none none).1 (by decide),
   (authenticateToken_rejections (fun _ => .error "bad sig") (some "Bearer abc") none).2.1
     "abc" (by decide) (by decide) "bad sig" rfl⟩

/-- C8: when both a (truthy) Authorization-header token and a (truthy)
named-cookie token are present, the header token is the one handed to
verification, and the middleware behaves as if the cookie were
absent. -/
theorem headerToken_precedence (authorization : Option String) (th tc : String)
    (hh : headerToken authorization = some th) (hth : th ≠ "") (_htc : tc ≠ "") :
    tokenJS authorization (some tc) = some th ∧
    ∀ verify, authenticateToken verify authorization (some tc) =
      authenticateToken verify authorization none := by
  have h1 : tokenJS authorization (some tc) = some th := by
    simp [tokenJS, hh, hth]
  have h2 : tokenJS authorization none = some th := by
    simp [tokenJS, hh, hth]
  exact ⟨h1, fun verify => by simp [authenticateToken, h1, h2]⟩

/-- Witness for `headerToken_precedence`: header `Bearer abc` together
with cookie `xyz`. -/
theorem headerToken_precedence_witness :
    tokenJS (some "Bearer abc") (some "xyz") = some "abc" ∧
    authenticateToken (fun _ => .error "e") (some "Bearer abc") (some "xyz") =
      authenticateToken (fun _ => .error "e") (some "Bearer abc") none :=
  ⟨(headerToken_precedence (some "Bearer abc") "abc" "xyz" (by decide) (by decide) (by decide)).1,
   (headerToken_precedence (some "Bearer abc") "abc" "xyz" (by decide) (by decide) (by decide)).2
     (fun _ => .error "e")⟩



/-- C6: a login request missing either field is answered 400 "Both
email and password are required" with no store operation performed;
a request whose email matches a stored (password-bearing) user but
whose password fails the bcrypt comparison is answered 400 "Invalid
credentials". -/
theorem login_missing_fields_and_wrong_password
    (db : List User) (compare : String → String → Bool) :
    (∀ email? password?,
      jsTruthy email? = false ∨ jsTruthy password? = false →
      loginHandler db compare email? password? =
        ((400, jobj [("message", .str "Both email and password are required")]),
         [])) ∧
    (∀ e p u h, e ≠ "" → p ≠ "" →
      singleByEmail db e = .ok u → u.password = some h → h ≠ "" →
      compare p h = false →
      (loginHandler db compare (some e) (some p)).1 =
        (400, jobj [("message", .str "Invalid credentials")])) := by
  constructor
  · intro email? password? hfalsy
    match email?, password? with
    | none, _ => rfl
    | some e, none => rfl
    | some e, some p =>
        simp [jsTruthy] at hfalsy
        have : e = "" ∨ p = "" := by
          rcases hfalsy with h | h
          · exact Or.inl h
          · exact Or.inr h
        simp [loginHandler]
        intro he
        rcases this with h | h
        · exact absurd h he
        · exact fun hp => absurd h hp
  · intro e p u h he hp hu hpw hh hcmp
    simp [loginHandler, he, hp, hu, hpw, hh, hcmp]

/-- Witness for `login_missing_fields_and_wrong_password`. -/
theorem login_missing_fields_and_wrong_password_witness :
    (loginHandler
        [{ id := 1, name := "n", email := "a@b.c", password := some "hash",
           created_at := 0, profile_picture := none }]
        (fun _ _ => false) (some "a@b.c") none =
      ((400, jobj [("message", .str "Both email and password are required")]),
       [])) ∧
    ((loginHandler
        [{ id := 1, name := "n", email := "a@b.c", password := some "hash",
           created_at := 0, profile_picture := none }]
        (fun _ _ => false) (some "a@b.c") (some "wrong")).1 =
      (400, jobj [("message", .str "Invalid credentials")])) :=
  ⟨(login_missing_fields_and_wrong_password _ _).1 (some "a@b.c") none
      (Or.inr (by decide)),
   (login_missing_fields_and_wrong_password _ _).2 "a@b.c" "wrong"
      { id := 1, name := "n", email := "a@b.c", password := some "hash",
        created_at := 0, profile_picture := none }
      "hash" (by decide) (by decide) rfl rfl (by decide) rfl⟩

/-- C1 (divergence witness): on a store that has no row matching the
post id and caller, the `index.js` update handler answers 400 with
message `"Not authorized to update this post "` (and then also sends a
200), and the delete handler answers 400 with
`"not authorized to delete this post"`; neither message is the
`"... or post not found"` wording the spec states. -/
theorem postMutation_messages_diverge_from_spec :
    putPostsHandler [] 1 99 (some "t") (some "b") =
      [(400, jobj [("message", .str "Not authorized to update this post ")]),
       (200, jobj [("updatedPost", Json.null)])] ∧
    deletePostsHandler [] 1 99 =
      [(400, jobj [("message", .str "not authorized to delete this post")])] ∧
    ("Not authorized to update this post " ≠
      "Not authorized to update this post or post not found") ∧
    ("not authorized to delete this post" ≠
      "not authorized to delete this post or post not found") :=
  ⟨rfl, rfl, by decide, by decide⟩

/-- C10: neither handler sends exactly one response on its error path:
the PUT error branch (no `return`) sends the 400 and then the 200, and
the register insert-error branch sends the 500, falls through to
dereference the `null` insert result, and the caught `TypeError`
produces a second 500. -/
theorem handlers_double_response
    (db : List Post) (uid postId : Nat) (t b : String)
    (ht : t ≠ "") (hb : b ≠ "") (hm : matchingPosts db postId uid = [])
    (udb : List User) (er serr : StoreErr) (n e p : String)
    (hn : n ≠ "") (he : e ≠ "") (hp : p ≠ "")
    (hlk : singleByEmail udb e = .error serr) :
    putPostsHandler db uid postId (some t) (some b) =
      [(400, jobj [("message", .str "Not authorized to update this post ")]),
       (200, jobj [("updatedPost", Json.null)])] ∧
    registerHandler udb (.error er) (some n) (some e) (some p) =
      [(500, jobj [("message", .str "error creating user")]),
       (500, jobj [("error", .str "internal server error")])] := by
  constructor
  · simp [putPostsHandler, ht, hb, hm]
  · simp [registerHandler, hn, he, hp, hlk]

/-- Witness for `handlers_double_response`. -/
theorem handlers_double_response_witness :
    putPostsHandler [] 1 5 (some "x") (some "y") =
      [(400, jobj [("message", .str "Not authorized to update this post ")]),
       (200, jobj [("updatedPost", Json.null)])] ∧
    registerHandler [] (.error { code := "XX000", msg := "boom" })
        (some "n") (some "a@b.c") (some "pw") =
      [(500, jobj [("message", .str "error creating user")]),
       (500, jobj [("error", .str "internal server error")])] :=
  handlers_double_response [] 1 5 "x" "y" (by decide) (by decide) rfl
    [] { code := "XX000", msg := "boom" }
    { code := "PGRST116", msg := "JSON object requested, multiple (or no) rows returned" }
    "n" "a@b.c" "pw" (by decide) (by decide) (by decide) rfl



/-- `Math.ceil(c / l)` as computed by `jsCeilDiv` agrees with the
mathematical ceiling of the exact quotient when the divisor is
positive. -/
theorem jsCeilDiv_eq_ceil (c l : Int) (hl : 0 < l) :
    jsCeilDiv c l = ⌈(c : ℚ) / (l : ℚ)⌉ := by
  obtain ⟨d, rfl⟩ : ∃ d : ℕ, (d : ℤ) = l := ⟨l.toNat, Int.toNat_of_nonneg hl.le⟩
  have hfd : (-c).fdiv d = (-c) / (d : ℤ) := Int.fdiv_eq_ediv _ hl.le
  have hfloor : ⌊(-(c : ℚ)) / ((d : ℕ) : ℚ)⌋ = (-c) / (d : ℤ) := by
    exact_mod_cast Rat.floor_intCast_div_natCast (-c) d
  have hceil : ⌈(c : ℚ) / ((d : ℕ) : ℚ)⌉ = -⌊(-(c : ℚ)) / ((d : ℕ) : ℚ)⌋ := by
    rw [neg_div, Int.floor_neg, neg_neg]
  rw [jsCeilDiv, hfd]
  push_cast
  rw [hceil, hfloor]


theorem getPostsResp_posts_window (rows : List (Post × User))
    (pageQ limitQ searchQ : Option String) :
    (getPostsResp rows pageQ limitQ searchQ).posts =
      ((sortedRows rows searchQ).drop
          (((effPage pageQ - 1) * effLimit limitQ).toNat)).take
        (effLimit limitQ).toNat := by
  simp only [getPostsResp]
  congr 1
  omega

/-- C4: page is clamped to at least 1 (`page=0` behaves as `page=1`),
limit is clamped to at most 100 with default 10 (`limit=1000` returns
at most 100 posts), the returned window starts at offset
`(page-1)*limit`, and the response reports the total matching count,
`totalPages = ceil(count/limit)` and the echoed current page. -/
theorem getPosts_pagination (rows : List (Post × User))
    (pageQ limitQ searchQ : Option String) :
    (1 ≤ effPage pageQ ∧ effPage (some "0") = 1 ∧
      getPostsResp rows (some "0") limitQ searchQ =
        getPostsResp rows (some "1") limitQ searchQ) ∧
    (effLimit limitQ ≤ 100 ∧ effLimit none = 10 ∧
      effLimit (some "1000") = 100 ∧
      (getPostsResp rows pageQ (some "1000") searchQ).posts.length ≤ 100) ∧
    ((getPostsResp rows pageQ limitQ searchQ).posts =
      ((sortedRows rows searchQ).drop
          (((effPage pageQ - 1) * effLimit limitQ).toNat)).take
        (effLimit limitQ).toNat) ∧
    ((getPostsResp rows pageQ limitQ searchQ).totalPosts =
      (filteredRows rows searchQ).length) ∧
    (0 < effLimit limitQ →
      (getPostsResp rows pageQ limitQ searchQ).totalPages =
        ⌈((filteredRows rows searchQ).length : ℚ) / (effLimit limitQ : ℚ)⌉) ∧
    ((getPostsResp rows pageQ limitQ searchQ).currentPage = effPage pageQ) := by
  refine ⟨⟨?_, rfl, rfl⟩, ⟨?_, rfl, rfl, ?_⟩, getPostsResp_posts_window .., rfl, ?_, rfl⟩
  · have hp : effPage pageQ =
        if jsOrDefault pageQ 1 < 1 then 1 else jsOrDefault pageQ 1 := rfl
    rw [hp]
    split <;> omega
  · exact min_le_right _ _
  · rw [getPostsResp_posts_window]
    refine le_trans (List.length_take_le _ _) ?_
    decide
  · intro hl
    have := jsCeilDiv_eq_ceil ((filteredRows rows searchQ).length : ℤ)
      (effLimit limitQ) hl
    simp only [getPostsResp]
    rw [this]
    push_cast
    rfl

/-- Witness for `getPosts_pagination` (discharging the positive-limit
hypothesis of the totalPages component at concrete inputs). -/
theorem getPosts_pagination_witness :
    (getPostsResp [] none none none).totalPages =
      ⌈((filteredRows [] none).length : ℚ) / (effLimit none : ℚ)⌉ :=
  (getPosts_pagination [] none none none).2.2.2.2.1 (by decide)



/-- The computed display name is never the empty string: the fallback
concatenation always contains a space, so the `!name` guard can only
fire for a falsy `displayName` with a falsy (impossible)
concatenation. -/
theorem profileName_ne_empty (p : GProfile) : profileName p ≠ "" := by
  have h : ∀ a b : Option String, jsStr a ++ " " ++ jsStr b ≠ "" := by
    intro a b hcontra
    have hlen := congrArg String.length hcontra
    rw [String.length_append, String.length_append] at hlen
    have h1 : (" ").length = 1 := rfl
    have h0 : ("" : String).length = 0 := rfl
    omega
  unfold profileName
  cases hdn : p.displayName with
  | none => exact h _ _
  | some s =>
      by_cases hs : s = ""
      · simp [hs]
        exact h _ _
      · simp [hs]

/-- C3 counterexample: with profile email `" Foo@Example.Com"` and an
existing user found, the store lookup the resolver performs uses the
raw profile email, which differs from its normalized (lower-cased,
trimmed) form. -/
theorem googleVerify_lookup_not_normalized :
    (googleVerify
      { emails := some [some " Foo@Example.Com"], displayName := some "Foo",
        givenName := none, familyName := none }
      (.ok { id := 1, name := "Foo", email := "foo@example.com",
             password := none, created_at := 0, profile_picture := none })
      (.error { code := "X", msg := "unused" })
      (.error { code := "X", msg := "unused" })).2 =
      [.lookup " Foo@Example.Com"] ∧
    " Foo@Example.Com" ≠ jsTrim (jsToLower " Foo@Example.Com") :=
  ⟨rfl, by decide⟩

/-- C3 (amended): the resolver looks the user up by the raw profile
email; if a user is found it is returned as a login with no insert
performed, and if the lookup fails a new user is created with
normalized name (trimmed) and email (lower-cased, trimmed) and a null
password. -/
theorem googleVerify_find_or_create
    (p : GProfile) (e : String) (he : profileEmail p = some e) (hne : e ≠ "")
    (fetchRes insertRes retryRes : Except StoreErr User) :
    (∀ u, fetchRes = .ok u →
      googleVerify p fetchRes insertRes retryRes = (.ok u, [.lookup e])) ∧
    (∀ ferr nu, fetchRes = .error ferr → insertRes = .ok nu →
      googleVerify p fetchRes insertRes retryRes =
        (.ok nu,
         [.lookup e,
          .insertUser (jsTrim (profileName p)) (jsTrim (jsToLower e)) none])) := by
  constructor
  · intro u hu
    subst hu
    simp [googleVerify, he, jsTruthy, hne, profileName_ne_empty p]
  · intro ferr nu hf hi
    subst hf; subst hi
    simp [googleVerify, he, jsTruthy, hne, profileName_ne_empty p]

/-- Witness for `googleVerify_find_or_create`. -/
theorem googleVerify_find_or_create_witness :
    (googleVerify
        { emails := some [some "A@B.c"], displayName := some "Ann",
          givenName := none, familyName := none }
        (.ok { id := 2, name := "Ann", email := "a@b.c", password := none,
               created_at := 0, profile_picture := none })
        (.error { code := "X", msg := "unused" })
        (.error { code := "X", msg := "unused" }) =
      (.ok { id := 2, name := "Ann", email := "a@b.c", password := none,
             created_at := 0, profile_picture := none },
       [.lookup "A@B.c"])) ∧
    (googleVerify
        { emails := some [some "A@B.c"], displayName := some "Ann",
          givenName := none, familyName := none }
        (.error { code := "PGRST116", msg := "no rows" })
        (.ok { id := 3, name := "Ann", email := "a@b.c", password := none,
               created_at := 0, profile_picture := none })
        (.error { code := "X", msg := "unused" }) =
      (.ok { id := 3, name := "Ann", email := "a@b.c", password := none,
             created_at := 0, profile_picture := none },
       [.lookup "A@B.c", .insertUser "Ann" "a@b.c" none])) := by
  constructor
  · exact (googleVerify_find_or_create
      { emails := some [some "A@B.c"], displayName := some "Ann",
        givenName := none, familyName := none }
      "A@B.c" rfl (by decide)
      (.ok { id := 2, name := "Ann", email := "a@b.c", password := none,
             created_at := 0, profile_picture := none })
      (.error { code := "X", msg := "unused" })
      (.error { code := "X", msg := "unused" })).1
      { id := 2, name := "Ann", email := "a@b.c", password := none,
        created_at := 0, profile_picture := none } rfl
  · have := (googleVerify_find_or_create
      { emails := some [some "A@B.c"], displayName := some "Ann",
        givenName := none, familyName := none }
      "A@B.c" rfl (by decide)
      (.error { code := "PGRST116", msg := "no rows" })
      (.ok { id := 3, name := "Ann", email := "a@b.c", password := none,
             created_at := 0, profile_picture := none })
      (.error { code := "X", msg := "unused" })).2
      { code := "PGRST116", msg := "no rows" }
      { id := 3, name := "Ann", email := "a@b.c", password := none,
        created_at := 0, profile_picture := none } rfl rfl
    exact this

/-- C5: when the create insert fails with uniqueness-violation code
23505, the resolver re-reads by email exactly once (the trace holds
exactly the initial lookup, the insert, and one retry lookup) and
returns the user the retry finds; if the retry also fails it
propagates the original creation error, whatever the retry error
was. -/
theorem googleVerify_conflict_retry
    (p : GProfile) (e : String) (he : profileEmail p = some e) (hne : e ≠ "")
    (ferr ce : StoreErr) (hce : ce.code = "23505")
    (retryRes : Except StoreErr User) :
    (∀ ru, retryRes = .ok ru →
      googleVerify p (.error ferr) (.error ce) retryRes =
        (.ok ru,
         [.lookup e,
          .insertUser (jsTrim (profileName p)) (jsTrim (jsToLower e)) none,
          .lookup e])) ∧
    (∀ re, retryRes = .error re →
      googleVerify p (.error ferr) (.error ce) retryRes =
        (.fail (.store ce),
         [.lookup e,
          .insertUser (jsTrim (profileName p)) (jsTrim (jsToLower e)) none,
          .lookup e])) := by
  constructor
  · intro ru hr
    subst hr
    simp [googleVerify, he, jsTruthy, hne, profileName_ne_empty p, hce]
  · intro re hr
    subst hr
    simp [googleVerify, he, jsTruthy, hne, profileName_ne_empty p, hce]

/-- Witness for `googleVerify_conflict_retry`. -/
theorem googleVerify_conflict_retry_witness :
    googleVerify
        { emails := some [some "a@b.c"], displayName := some "Ann",
          givenName := none, familyName := none }
        (.error { code := "PGRST116", msg := "no rows" })
        (.error { code := "23505", msg := "duplicate key" })
        (.error { code := "PGRST116", msg := "still no rows" }) =
      (.fail (.store { code := "23505", msg := "duplicate key" }),
       [.lookup "a@b.c", .insertUser "Ann" "a@b.c" none, .lookup "a@b.c"]) :=
  (googleVerify_conflict_retry
    { emails := some [some "a@b.c"], displayName := some "Ann",
      givenName := none, familyName := none }
    "a@b.c" rfl (by decide)
    { code := "PGRST116", msg := "no rows" }
    { code := "23505", msg := "duplicate key" } rfl
    (.error { code := "PGRST116", msg := "still no rows" })).2
    { code := "PGRST116", msg := "still no rows" } rfl

/-- C9 divergence: a profile with no email does fail with the
missing-email error (first conjunct, the half of the claim the code
meets), but a profile with an email and no `displayName` and no `name`
parts does not fail with a missing-name error — JS string coercion
turns the fallback into the truthy `"undefined undefined"`, so the
`!name` guard never fires and a user is created with that name. -/
theorem googleVerify_missingName_unreachable :
    (∀ fetchRes insertRes retryRes,
      googleVerify
          { emails := none, displayName := some "Ann",
            givenName := none, familyName := none }
          fetchRes insertRes retryRes = (.fail .missingEmail, [])) ∧
    profileName
        { emails := some [some "user@example.com"], displayName := none,
          givenName := none, familyName := none } = "undefined undefined" ∧
    googleVerify
        { emails := some [some "user@example.com"], displayName := none,
          givenName := none, familyName := none }
        (.error { code := "PGRST116", msg := "no rows" })
        (.ok { id := 7, name := "undefined undefined",
               email := "user@example.com", password := none,
               created_at := 0, profile_picture := none })
        (.error { code := "X", msg := "unused" }) =
      (.ok { id := 7, name := "undefined undefined",
             email := "user@example.com", password := none,
             created_at := 0, profile_picture := none },
       [.lookup "user@example.com",
        .insertUser "undefined undefined" "user@example.com" none]) ∧
    (Done.ok { id := 7, name := "undefined undefined",
               email := "user@example.com", password := none,
               created_at := 0, profile_picture := none } ≠
      Done.fail .missingName) :=
  ⟨fun _ _ _ => rfl, rfl, rfl, by decide⟩



/-- GET /posts error body: `{ message, error }` (src/index.js 338-340). -/
def storeErrJson (e : StoreErr) : Json :=
  jobj [("code", .str e.code), ("message", .str e.msg)]

/-- GET /posts as a single response: the store either fails the whole
query (`failure?`) or returns the paginated rows. -/
def getPostsHandler (failure? : Option StoreErr)
    (rows : List (Post × User)) (pageQ limitQ searchQ : Option String) : Resp :=
  match failure? with
  | some e =>
      (500, jobj [("message", .str "error fetching posts"),
        ("error", storeErrJson e)])
  | none => (200, postsRespJson (getPostsResp rows pageQ limitQ searchQ))

theorem hasKey_num (k : String) (n : Int) : (Json.num n).hasKey k = false := rfl

theorem hasKey_str (k s : String) : (Json.str s).hasKey k = false := rfl

theorem hasKey_null (k : String) : (Json.null).hasKey k = false := rfl

theorem hasKey_password_userBrief (u : User) :
    (userBrief u).hasKey "password" = false := rfl

theorem hasKey_password_registerBody (u : User) :
    (registerSuccessBody u).hasKey "password" = false := rfl

theorem hasKey_password_loginBody (u : User) :
    (loginSuccessBody u).hasKey "password" = false := by
  obtain ⟨i, n, e, pw, ca, pp⟩ := u
  cases pp <;> rfl

theorem hasKey_password_authMeBody (u : User) :
    (authMeSuccessBody u).hasKey "password" = false := by
  obtain ⟨i, n, e, pw, ca, pp⟩ := u
  cases pp <;> rfl

theorem hasKey_password_postRows (l : List (Post × User)) :
    (l.map postRowJson).any (fun x => x.hasKey "password") = false := by
  induction l with
  | nil => rfl
  | cons hd tl ih =>
      rw [List.map_cons, List.any_cons, ih, Bool.or_false]
      rfl

theorem hasKey_password_postsBody (r : PostsResp) :
    (postsRespJson r).hasKey "password" = false := by
  rw [postsRespJson, hasKey_jobj]
  simp only [List.any_cons, List.any_nil, hasKey_jarr,
    hasKey_password_postRows, hasKey_num]
  decide

theorem hasKey_password_cookieNames
    (cookies? : Option (List (String × String))) :
    (availableCookiesJson cookies?).hasKey "password" = false := by
  rw [availableCookiesJson, hasKey_jarr]
  induction cookies?.getD [] with
  | nil => rfl
  | cons hd tl ih =>
      rw [List.map_cons, List.any_cons, ih, Bool.or_false]
      rfl

/-- C7: no response of the register, login, identity-check or posts
listing endpoints ever contains a `password` field, at any depth of
the JSON body. -/
theorem responses_never_contain_password :
    (∀ (db : List User) (insertRes : Except StoreErr User)
        (name? email? password? : Option String),
      ((registerHandler db insertRes name? email? password?).all
        (fun r => !(r.2.hasKey "password"))) = true) ∧
    (∀ (db : List User) (compare : String → String → Bool)
        (email? password? : Option String),
      (loginHandler db compare email? password?).1.2.hasKey "password" = false) ∧
    (∀ (db : List User) (verify : String → Except String TokenClaims)
        (cookieName : String) (cookies? : Option (List (String × String))),
      (authMeHandler db verify cookieName cookies?).2.hasKey "password" = false) ∧
    (∀ (failure? : Option StoreErr) (rows : List (Post × User))
        (pageQ limitQ searchQ : Option String),
      (getPostsHandler failure? rows pageQ limitQ searchQ).2.hasKey
        "password" = false) := by
  refine ⟨?_, ?_, ?_, ?_⟩
  · intro db insertRes name? email? password?
    rcases name? with _ | n
    · rfl
    rcases email? with _ | e
    · rfl
    rcases password? with _ | p
    · rfl
    simp only [registerHandler]
    split
    · rfl
    · split
      · rfl
      · split
        · simp [hasKey_password_registerBody]
        · rfl
  · intro db compare email? password?
    rcases email? with _ | e
    · rfl
    rcases password? with _ | p
    · rfl
    simp only [loginHandler]
    split
    · rfl
    · split
      · rfl
      · split
        · rfl
        · split
          · rfl
          · split
            · exact hasKey_password_loginBody _
            · rfl
  · intro db verify cookieName cookies?
    simp only [authMeHandler]
    split
    · simp only [hasKey_jobj, List.any_cons, List.any_nil, hasKey_null,
        hasKey_str, hasKey_password_cookieNames]
      decide
    · split
      · simp only [hasKey_jobj, List.any_cons, List.any_nil, hasKey_null,
          hasKey_str, hasKey_password_cookieNames]
        decide
      · split
        · rfl
        · split
          · rfl
          · exact hasKey_password_authMeBody _
  · intro failure? rows pageQ limitQ searchQ
    cases failure? with
    | some e => rfl
    | none => exact hasKey_password_postsBody _


end Backend
